import Mathlib

/-!
Verification of the Net-Care daycare-management backend
(`backend/app/api/v1/endpoints/*.py`) against its specification.

Embedding conventions:
* UUID primary/foreign keys are modelled as `Nat`.
* SQL dates are modelled as `Nat` (days since an arbitrary epoch); times of
  day as `Nat` seconds since midnight (Python `datetime.time` at second
  resolution).
* Each database table is a `List` of row structures; `query(...).first()`
  is `List.find?` over the table in row order, `query(...).count()` is the
  length of the corresponding filter, `db.add` appends a row, and
  `db.delete` erases the found row.  `order_by` clauses are kept out of the
  model where the stated properties are about membership, not order.
* `raise HTTPException(status_code=s)` is `Except.error s`; every endpoint
  either raises before any write or commits, so an endpoint returning
  `Except.error _` leaves the database unchanged by construction, mirroring
  the request-scoped transaction.
* Row structures carry the columns the modelled endpoints read or write;
  audit-only columns (timestamps, signature URLs, free-text fields never
  branched on) are omitted.
-/

namespace NetCare

/-- HTTP status codes used by the endpoints. -/
def HTTP_400_BAD_REQUEST : Nat := 400
def HTTP_404_NOT_FOUND : Nat := 404
def HTTP_409_CONFLICT : Nat := 409
def HTTP_500_INTERNAL_SERVER_ERROR : Nat := 500

/-- `app/models/child.py`, class `Child` (columns used by the endpoints
under study). -/
structure Child where
  id : Nat
  first_name : String
  last_name : String
  is_active : Bool
deriving Repr, DecidableEq

/-- `app/models/health_safety.py`, class `MedicationAuthorization`. -/
structure MedicationAuthorization where
  id : Nat
  child_id : Nat
  start_date : Nat
  end_date : Option Nat
  is_active : Bool
deriving Repr, DecidableEq

/-- `app/models/health_safety.py`, class `MedicationLog`. -/
structure MedicationLog where
  id : Nat
  child_id : Nat
  authorization_id : Nat
  administration_date : Nat
  administered_by : Nat
deriving Repr, DecidableEq

/-- `app/schemas/health_safety.py`, `MedicationLogCreate` (the fields the
endpoint branches on or persists into the columns modelled above). -/
structure MedicationLogCreate where
  child_id : Nat
  authorization_id : Nat
  administration_date : Nat
deriving Repr, DecidableEq

/-- `create_medication_log` (`medications.py`, lines 266-335): checks, in
order, child existence (404), authorization existence (404), authorization
active (400), authorization/child match (400), administration date not
before `start_date` (400), and — when `end_date` is set — not after
`end_date` (400); on success commits the new log.  `new_id` stands for the
fresh UUID the database generates. -/
def create_medication_log (children : List Child)
    (auths : List MedicationAuthorization) (logs : List MedicationLog)
    (current_user_id : Nat) (new_id : Nat) (log_data : MedicationLogCreate) :
    Except Nat (List MedicationLog × MedicationLog) :=
  match children.find? (fun c => c.id == log_data.child_id) with
  | none => .error HTTP_404_NOT_FOUND
  | some _ =>
    match auths.find? (fun a => a.id == log_data.authorization_id) with
    | none => .error HTTP_404_NOT_FOUND
    | some authorization =>
      if !authorization.is_active then
        .error HTTP_400_BAD_REQUEST
      else if authorization.child_id != log_data.child_id then
        .error HTTP_400_BAD_REQUEST
      else if log_data.administration_date < authorization.start_date then
        .error HTTP_400_BAD_REQUEST
      else
        let new_log : MedicationLog :=
          { id := new_id
            child_id := log_data.child_id
            authorization_id := log_data.authorization_id
            administration_date := log_data.administration_date
            administered_by := current_user_id }
        match authorization.end_date with
        | some e =>
          if e < log_data.administration_date then .error HTTP_400_BAD_REQUEST
          else .ok (logs ++ [new_log], new_log)
        | none => .ok (logs ++ [new_log], new_log)

/-- `app/models/daily_operations.py`, class `Attendance`.  `check_in_time`
and `check_out_time` are seconds since midnight; `late_pickup_minutes` has
column default 0 and `is_late_pickup` default false. -/
structure Attendance where
  id : Nat
  child_id : Nat
  attendance_date : Nat
  check_in_time : Nat
  check_out_time : Option Nat
  is_late_pickup : Bool
  late_pickup_minutes : Nat
deriving Repr, DecidableEq

/-- `app/schemas/daily_operations.py`, `AttendanceCreate`. -/
structure AttendanceCreate where
  child_id : Nat
  check_in_time : Nat
deriving Repr, DecidableEq

/-- `check_in_child` (`attendance.py`, lines 26-81): child must exist (404)
and be active (400), and no attendance row for (child, today) may exist yet
(400); on success commits a fresh row dated `today` with the column
defaults `is_late_pickup = false`, `late_pickup_minutes = 0`. -/
def check_in_child (children : List Child) (attendance_tbl : List Attendance)
    (attendance_data : AttendanceCreate) (today : Nat) (new_id : Nat) :
    Except Nat (List Attendance × Attendance) :=
  match children.find? (fun c => c.id == attendance_data.child_id) with
  | none => .error HTTP_404_NOT_FOUND
  | some child =>
    if !child.is_active then
      .error HTTP_400_BAD_REQUEST
    else
      match attendance_tbl.find? (fun a =>
          a.child_id == attendance_data.child_id && a.attendance_date == today) with
      | some _ => .error HTTP_400_BAD_REQUEST
      | none =>
        let new_attendance : Attendance :=
          { id := new_id
            child_id := attendance_data.child_id
            attendance_date := today
            check_in_time := attendance_data.check_in_time
            check_out_time := none
            is_late_pickup := false
            late_pickup_minutes := 0 }
        .ok (attendance_tbl ++ [new_attendance], new_attendance)

/-- The fixed standard pickup time of `check_out_child`:
`time(18, 0)` as seconds since midnight. -/
def STANDARD_PICKUP_SECONDS : Nat := 18 * 3600

/-- `check_out_child` (`attendance.py`, lines 84-140): 404 when the row is
missing, 400 when already checked out; otherwise stores the checkout time
and, when it is past 18:00, computes
`late_minutes = int((checkout - 18:00).total_seconds() / 60)` (truncating
division) and sets the late-pickup fields only when `late_minutes` strictly
exceeds the configured grace period
(`settings.LATE_PICKUP_GRACE_MINUTES`, passed here as `grace`). -/
def check_out_child (attendance_tbl : List Attendance) (attendance_id : Nat)
    (check_out_time : Nat) (grace : Nat) :
    Except Nat (List Attendance × Attendance) :=
  match attendance_tbl.find? (fun a => a.id == attendance_id) with
  | none => .error HTTP_404_NOT_FOUND
  | some attendance =>
    if attendance.check_out_time.isSome then
      .error HTTP_400_BAD_REQUEST
    else
      let updated :=
        let base := { attendance with check_out_time := some check_out_time }
        if STANDARD_PICKUP_SECONDS < check_out_time then
          let late_minutes := (check_out_time - STANDARD_PICKUP_SECONDS) / 60
          if grace < late_minutes then
            { base with is_late_pickup := true
                        late_pickup_minutes := late_minutes - grace }
          else base
        else base
      .ok (attendance_tbl.map (fun a => if a.id == attendance_id then updated else a),
           updated)

/-- `app/models/child.py`, class `EmergencyContact`.  `priority_order` is an
SQL `Integer`. -/
structure EmergencyContact where
  id : Nat
  child_id : Nat
  priority_order : Int
deriving Repr, DecidableEq

/-- `delete_emergency_contact` (`emergency_contacts.py`, lines 159-191):
404 when the contact is missing; counts the rows of the contact's child and
refuses with 400 when that count is ≤ 2; otherwise deletes the row. -/
def delete_emergency_contact (contacts : List EmergencyContact)
    (contact_id : Nat) : Except Nat (List EmergencyContact) :=
  match contacts.find? (fun c => c.id == contact_id) with
  | none => .error HTTP_404_NOT_FOUND
  | some contact =>
    if (contacts.filter (fun c => c.child_id == contact.child_id)).length ≤ 2 then
      .error HTTP_400_BAD_REQUEST
    else
      .ok (contacts.eraseP (fun c => c.id == contact_id))

/-- The body of the reorder loop of `reorder_emergency_contact`
(`emergency_contacts.py`, lines 224-237) as a per-row function: rows of
other children are untouched; the moved contact receives the new priority;
when moving up (`new < old`) every other contact of the child with
priority in `[new, old)` gains 1; when moving down every other contact
with priority in `(old, new]` loses 1. -/
def reorder_shift (contact : EmergencyContact) (contact_id : Nat)
    (new_priority : Int) (c : EmergencyContact) : EmergencyContact :=
  if c.child_id == contact.child_id then
    if c.id == contact_id then
      { c with priority_order := new_priority }
    else if new_priority < contact.priority_order then
      if new_priority ≤ c.priority_order ∧
          c.priority_order < contact.priority_order then
        { c with priority_order := c.priority_order + 1 }
      else c
    else
      if contact.priority_order < c.priority_order ∧
          c.priority_order ≤ new_priority then
        { c with priority_order := c.priority_order - 1 }
      else c
  else c

/-- `reorder_emergency_contact` (`emergency_contacts.py`, lines 194-242):
404 when the contact is missing; returns unchanged when the new priority
equals the old; otherwise applies `reorder_shift` to every row. -/
def reorder_emergency_contact (contacts : List EmergencyContact)
    (contact_id : Nat) (new_priority : Int) :
    Except Nat (List EmergencyContact) :=
  match contacts.find? (fun c => c.id == contact_id) with
  | none => .error HTTP_404_NOT_FOUND
  | some contact =>
    if contact.priority_order == new_priority then
      .ok contacts
    else
      .ok (contacts.map (reorder_shift contact contact_id new_priority))

/-- The priorities of one child's emergency contacts, in table order. -/
def child_priorities (contacts : List EmergencyContact) (child : Nat) :
    List Int :=
  (contacts.filter (fun c => c.child_id == child)).map (·.priority_order)

/-- A priority list is contiguous when it holds exactly the values
`1, …, n` for its length `n` (the spec's "contiguous ordering"). -/
def ContiguousFromOne (l : List Int) : Prop :=
  ∀ k : Int, k ∈ l ↔ 1 ≤ k ∧ k ≤ (l.length : Int)

/-- The priority change `reorder_shift` applies to a non-moved contact of
the same child, as a function on priorities. -/
def shift_priority (old new_priority p : Int) : Int :=
  if new_priority < old then
    if new_priority ≤ p ∧ p < old then p + 1 else p
  else
    if old < p ∧ p ≤ new_priority then p - 1 else p

/-- `app/models/child.py`, class `AuthorizedPickup`. -/
structure AuthorizedPickup where
  id : Nat
  child_id : Nat
  name : String
  relationship_type : String
  phone : String
  photo_url : Option String
  identification_notes : Option String
  requires_password : Bool
  password_hint : Option String
  is_active : Bool
deriving Repr, DecidableEq

/-- SQL `column.ilike(f"%{q}%")`: case-insensitive containment of `q` in
`s`.  (LIKE wildcard characters inside `q` belong to the external database
collaborator and are out of scope of this embedding; for wildcard-free `q`
the pattern `%q%` is exactly case-insensitive substring containment.) -/
def ilike_contains (q s : String) : Bool :=
  decide (q.data.map Char.toLower <:+: s.data.map Char.toLower)

/-- The `pickup_person` object of the authorized verification response
(`authorized_pickup.py`, lines 295-310). -/
structure PickupPersonDetail where
  id : Nat
  name : String
  relationship_type : String
  phone : String
  photo_url : Option String
  requires_password : Bool
  password_hint : Option String
  identification_notes : Option String
deriving Repr, DecidableEq

/-- The two response shapes of `verify_pickup_authorization`: the denial
dict (lines 287-293) carries no pickup-person fields at all; the grant dict
(lines 295-310) embeds a `PickupPersonDetail`.  The last argument of each
constructor is the constant `message` string. -/
inductive VerifyPickupResponse where
  | denied (child_id : Nat) (child_name : String) (pickup_name : String)
      (message : String)
  | granted (child_id : Nat) (child_name : String)
      (pickup_person : PickupPersonDetail) (message : String)
deriving Repr, DecidableEq

/-- `verify_pickup_authorization` (`authorized_pickup.py`, lines 255-310):
404 when the child is missing; otherwise takes the first active pickup row
of that child whose name matches `%pickup_name%` case-insensitively.  With
no match it answers the denial dict; with a match it answers the grant
dict, in which `password_hint` is included only when `requires_password`
is true. -/
def verify_pickup_authorization (children : List Child)
    (pickups : List AuthorizedPickup) (child_id : Nat) (pickup_name : String) :
    Except Nat VerifyPickupResponse :=
  match children.find? (fun c => c.id == child_id) with
  | none => .error HTTP_404_NOT_FOUND
  | some child =>
    match pickups.find? (fun p =>
        p.child_id == child_id && ilike_contains pickup_name p.name &&
          p.is_active) with
    | none =>
      .ok (.denied child_id (child.first_name ++ " " ++ child.last_name)
        pickup_name "This person is NOT authorized to pick up this child")
    | some pickup =>
      .ok (.granted child_id (child.first_name ++ " " ++ child.last_name)
        { id := pickup.id
          name := pickup.name
          relationship_type := pickup.relationship_type
          phone := pickup.phone
          photo_url := pickup.photo_url
          requires_password := pickup.requires_password
          password_hint :=
            if pickup.requires_password then pickup.password_hint else none
          identification_notes := pickup.identification_notes }
        "This person IS authorized to pick up this child")

/-- Replaces every pickup person's `identification_notes` and
`password_hint` by null, leaving all other columns untouched.  Used to
state that a failed verification is independent of those secrets. -/
def erase_pickup_secrets (pickups : List AuthorizedPickup) :
    List AuthorizedPickup :=
  pickups.map (fun p =>
    { p with identification_notes := none, password_hint := none })

/-- `app/models/child.py`, class `Parent` (key only; the relationship
endpoint reads nothing else from it). -/
structure Parent where
  id : Nat
deriving Repr, DecidableEq

/-- `app/models/child.py`, class `ChildParent`. -/
structure ChildParent where
  id : Nat
  child_id : Nat
  parent_id : Nat
deriving Repr, DecidableEq

/-- `app/schemas/child.py`, `ChildParentCreate` (keys only). -/
structure ChildParentCreate where
  child_id : Nat
  parent_id : Nat
deriving Repr, DecidableEq

/-- `create_child_parent_relationship` (`parents.py`, lines 170-213):
404 when child or parent is missing; when a row for the same
(child, parent) pair already exists it raises
`HTTP_400_BAD_REQUEST`; otherwise commits the new link row. -/
def create_child_parent_relationship (children : List Child)
    (parents : List Parent) (relationships : List ChildParent)
    (relationship_data : ChildParentCreate) (new_id : Nat) :
    Except Nat (List ChildParent × ChildParent) :=
  match children.find? (fun c => c.id == relationship_data.child_id) with
  | none => .error HTTP_404_NOT_FOUND
  | some _ =>
    match parents.find? (fun p => p.id == relationship_data.parent_id) with
    | none => .error HTTP_404_NOT_FOUND
    | some _ =>
      match relationships.find? (fun r =>
          r.child_id == relationship_data.child_id &&
            r.parent_id == relationship_data.parent_id) with
      | some _ => .error HTTP_400_BAD_REQUEST
      | none =>
        let new_relationship : ChildParent :=
          { id := new_id
            child_id := relationship_data.child_id
            parent_id := relationship_data.parent_id }
        .ok (relationships ++ [new_relationship], new_relationship)

/-- `app/models/compliance.py`, class `EnrollmentForm`. -/
structure EnrollmentForm where
  id : Nat
  child_id : Nat
  is_complete : Bool
  completed_by : Option Nat
deriving Repr, DecidableEq

/-- `app/schemas/compliance.py`, `EnrollmentFormCreate`. -/
structure EnrollmentFormCreate where
  child_id : Nat
  is_complete : Bool
deriving Repr, DecidableEq

/-- `create_enrollment_form` (`compliance.py`, lines 35-73): 404 when the
child is missing; when a form for the child already exists it raises
`HTTP_400_BAD_REQUEST`; otherwise commits the form, stamping
`completed_by` only when the form is submitted complete. -/
def create_enrollment_form (children : List Child)
    (forms : List EnrollmentForm) (form_data : EnrollmentFormCreate)
    (current_user_id : Nat) (new_id : Nat) :
    Except Nat (List EnrollmentForm × EnrollmentForm) :=
  match children.find? (fun c => c.id == form_data.child_id) with
  | none => .error HTTP_404_NOT_FOUND
  | some _ =>
    match forms.find? (fun f => f.child_id == form_data.child_id) with
    | some _ => .error HTTP_400_BAD_REQUEST
    | none =>
      let new_form : EnrollmentForm :=
        { id := new_id
          child_id := form_data.child_id
          is_complete := form_data.is_complete
          completed_by :=
            if form_data.is_complete then some current_user_id else none }
      .ok (forms ++ [new_form], new_form)

/-- `app/models/user.py`, class `User` (columns these endpoints read). -/
structure User where
  id : Nat
  first_name : String
  last_name : String
deriving Repr, DecidableEq

/-- `app/models/compliance.py`, class `ImmunizationRecord`. -/
structure ImmunizationRecord where
  id : Nat
  child_id : Nat
  vaccine_name : String
  expiration_date : Option Nat
  is_verified : Bool
deriving Repr, DecidableEq

/-- One element of the list built by `get_expiring_immunizations`
(`compliance.py`, lines 371-386). -/
structure ExpiringImmunizationEntry where
  record_id : Nat
  child_id : Nat
  child_name : String
  vaccine_name : String
  expiration_date : Nat
  days_until_expiration : Int
  is_verified : Bool
deriving Repr, DecidableEq

/-- `get_expiring_immunizations` (`compliance.py`, lines 348-386): keeps
the records with a non-null expiration date in
`[today, today + days]` and reports one entry per kept record whose child
row exists.  (The `order_by(expiration_date)` clause only orders the
output and is omitted; the claims below are about membership.) -/
def get_expiring_immunizations (children : List Child)
    (records : List ImmunizationRecord) (days : Nat) (today : Nat) :
    List ExpiringImmunizationEntry :=
  let cutoff_date := today + days
  let filtered := records.filter (fun r =>
    match r.expiration_date with
    | none => false
    | some e => decide (e ≤ cutoff_date) && decide (today ≤ e))
  filtered.filterMap (fun r =>
    match r.expiration_date, children.find? (fun c => c.id == r.child_id) with
    | some e, some child =>
      some { record_id := r.id
             child_id := child.id
             child_name := child.first_name ++ " " ++ child.last_name
             vaccine_name := r.vaccine_name
             expiration_date := e
             days_until_expiration := (e : Int) - (today : Int)
             is_verified := r.is_verified }
    | _, _ => none)

/-- `app/models/compliance.py`, class `StaffCredential`. -/
structure StaffCredential where
  id : Nat
  user_id : Nat
  credential_type : String
  expiration_date : Option Nat
  is_verified : Bool
  is_expired : Bool
deriving Repr, DecidableEq

/-- One element of the list built by `get_expiring_credentials`
(`compliance.py`, lines 571-586). -/
structure ExpiringCredentialEntry where
  credential_id : Nat
  user_id : Nat
  user_name : String
  credential_type : String
  expiration_date : Nat
  days_until_expiration : Int
  is_verified : Bool
deriving Repr, DecidableEq

/-- `get_expiring_credentials` (`compliance.py`, lines 548-586): same
window filter as `get_expiring_immunizations`, over staff credentials,
joining each kept credential with its user row. -/
def get_expiring_credentials (users : List User)
    (credentials : List StaffCredential) (days : Nat) (today : Nat) :
    List ExpiringCredentialEntry :=
  let cutoff_date := today + days
  let filtered := credentials.filter (fun c =>
    match c.expiration_date with
    | none => false
    | some e => decide (e ≤ cutoff_date) && decide (today ≤ e))
  filtered.filterMap (fun c =>
    match c.expiration_date, users.find? (fun u => u.id == c.user_id) with
    | some e, some user =>
      some { credential_id := c.id
             user_id := user.id
             user_name := user.first_name ++ " " ++ user.last_name
             credential_type := c.credential_type
             expiration_date := e
             days_until_expiration := (e : Int) - (today : Int)
             is_verified := c.is_verified }
    | _, _ => none)

/-- `app/schemas/compliance.py`, `StaffCredentialCreate` — note that the
schema (via `StaffCredentialBase`) itself declares `is_expired`. -/
structure StaffCredentialCreate where
  user_id : Nat
  credential_type : String
  expiration_date : Option Nat
  is_verified : Bool
  is_expired : Bool
deriving Repr, DecidableEq

/-- The `valid_types` list of `create_staff_credential`
(`compliance.py`, line 412). -/
def valid_credential_types : List String :=
  ["CPR", "First Aid", "Background Check", "TB Test", "DCFS Training",
   "Fingerprinting", "Mandated Reporter"]

/-- `create_staff_credential` (`compliance.py`, lines 393-433): 404 when
the user is missing, 400 on an invalid credential type; it then computes
`is_expired` from the supplied expiration date, but the row construction
`StaffCredential(**credential_data.model_dump(), is_expired=is_expired)`
passes `is_expired` twice — `model_dump()` already contains the schema
field `is_expired` — so Python raises
`TypeError: got multiple values for keyword argument` and FastAPI answers
500; the endpoint can never commit a credential. -/
def create_staff_credential (users : List User)
    (credential_data : StaffCredentialCreate) (today : Nat) :
    Except Nat (List StaffCredential × StaffCredential) :=
  match users.find? (fun u => u.id == credential_data.user_id) with
  | none => .error HTTP_404_NOT_FOUND
  | some _ =>
    if !valid_credential_types.contains credential_data.credential_type then
      .error HTTP_400_BAD_REQUEST
    else
      let _is_expired :=
        match credential_data.expiration_date with
        | some e => decide (e < today)
        | none => false
      .error HTTP_500_INTERNAL_SERVER_ERROR

/-- `app/schemas/compliance.py`, `StaffCredentialUpdate` under
`model_dump(exclude_unset=True)`: the outer `Option` is "field supplied in
the request"; for `expiration_date` the inner `Option` is the nullable
column value. -/
structure StaffCredentialUpdate where
  credential_type : Option String
  expiration_date : Option (Option Nat)
  is_verified : Option Bool
  is_expired : Option Bool
deriving Repr, DecidableEq

/-- `update_staff_credential` (`compliance.py`, lines 481-515): 404 when
the credential is missing; when `expiration_date` is among the supplied
fields, `is_expired` is recomputed first (true iff the new date is non-null
and strictly before today); then every supplied field — including a
caller-supplied `is_expired` — is written over the row. -/
def update_staff_credential (credentials : List StaffCredential)
    (credential_id : Nat) (credential_data : StaffCredentialUpdate)
    (today : Nat) : Except Nat (List StaffCredential × StaffCredential) :=
  match credentials.find? (fun c => c.id == credential_id) with
  | none => .error HTTP_404_NOT_FOUND
  | some credential =>
    let recomputed :=
      match credential_data.expiration_date with
      | none => credential
      | some (some e) =>
        if e < today then { credential with is_expired := true }
        else { credential with is_expired := false }
      | some none => { credential with is_expired := false }
    let updated : StaffCredential :=
      { recomputed with
        credential_type :=
          credential_data.credential_type.getD recomputed.credential_type
        expiration_date :=
          credential_data.expiration_date.getD recomputed.expiration_date
        is_verified := credential_data.is_verified.getD recomputed.is_verified
        is_expired := credential_data.is_expired.getD recomputed.is_expired }
    .ok (credentials.map (fun c => if c.id == credential_id then updated else c),
         updated)

/-- The attendance invariant of the spec: at most one attendance row per
(child, date) pair. -/
def at_most_one_per_child_date (tbl : List Attendance) : Prop :=
  tbl.Pairwise (fun a b =>
    ¬(a.child_id = b.child_id ∧ a.attendance_date = b.attendance_date))

/-! ## Theorems -/

/-- Erasing the row that `find?` locates removes exactly one row satisfying
any property the erased row satisfies. -/
theorem length_filter_eraseP_of_find? {α : Type} (p f : α → Bool)
    (l : List α) (a : α) (h : l.find? p = some a) (hfa : f a = true) :
    ((l.eraseP p).filter f).length + 1 = (l.filter f).length := by
  induction l with
  | nil => simp at h
  | cons x xs ih =>
    by_cases hx : p x
    · rw [List.find?_cons_of_pos _ hx] at h
      cases h
      rw [List.eraseP_cons_of_pos hx]
      simp [List.filter_cons, hfa]
    · rw [List.find?_cons_of_neg _ hx] at h
      rw [List.eraseP_cons_of_neg hx]
      by_cases hfx : f x
      · have := ih h
        simp only [List.filter_cons, hfx, if_true, List.length_cons]
        omega
      · simp only [List.filter_cons, hfx, Bool.false_eq_true, if_false]
        exact ih h

/-- C1: a medication log is created (201), with the table extended by
exactly that log, iff the referenced child exists, the referenced
authorization exists, the authorization is active, the authorization's
child equals the log's child, and the administration date lies in
`[start_date, end_date]` (unbounded above when `end_date` is null); a
missing child or authorization fails with 404 Not Found, and an inactive
authorization, a child mismatch, or a date outside the window fails with
400 Bad Request, creating no log. -/
theorem create_medication_log_spec (children : List Child)
    (auths : List MedicationAuthorization) (logs : List MedicationLog)
    (uid nid : Nat) (d : MedicationLogCreate) :
    ((∃ r, create_medication_log children auths logs uid nid d = .ok r) ↔
      ((children.find? (fun c => c.id == d.child_id)).isSome ∧
       ∃ a, auths.find? (fun a => a.id == d.authorization_id) = some a ∧
         a.is_active = true ∧ a.child_id = d.child_id ∧
         a.start_date ≤ d.administration_date ∧
         ∀ e, a.end_date = some e → d.administration_date ≤ e)) ∧
    (children.find? (fun c => c.id == d.child_id) = none →
      create_medication_log children auths logs uid nid d =
        .error HTTP_404_NOT_FOUND) ∧
    ((children.find? (fun c => c.id == d.child_id)).isSome →
      auths.find? (fun a => a.id == d.authorization_id) = none →
      create_medication_log children auths logs uid nid d =
        .error HTTP_404_NOT_FOUND) ∧
    (∀ a, (children.find? (fun c => c.id == d.child_id)).isSome →
      auths.find? (fun a => a.id == d.authorization_id) = some a →
      (a.is_active = false ∨ a.child_id ≠ d.child_id ∨
        d.administration_date < a.start_date ∨
        ∃ e, a.end_date = some e ∧ e < d.administration_date) →
      create_medication_log children auths logs uid nid d =
        .error HTTP_400_BAD_REQUEST) ∧
    (∀ tbl log,
      create_medication_log children auths logs uid nid d = .ok (tbl, log) →
      tbl = logs ++ [log]) := by
  refine ⟨?_, ?_, ?_, ?_, ?_⟩
  · constructor
    · rintro ⟨r, hr⟩
      unfold create_medication_log at hr
      cases hc : children.find? (fun c => c.id == d.child_id) with
      | none => rw [hc] at hr; exact absurd hr (by simp)
      | some child =>
        rw [hc] at hr
        cases ha : auths.find? (fun a => a.id == d.authorization_id) with
        | none => rw [ha] at hr; exact absurd hr (by simp)
        | some a =>
          rw [ha] at hr
          simp only [hc, Option.isSome_some, true_and]
          refine ⟨a, rfl, ?_⟩
          by_cases hact : a.is_active
          · simp only [hact, Bool.not_true, Bool.false_eq_true, if_false] at hr
            by_cases hmatch : a.child_id = d.child_id
            · simp only [hmatch, bne_self_eq_false, Bool.false_eq_true,
                if_false] at hr
              by_cases hstart : d.administration_date < a.start_date
              · simp [hstart] at hr
              · simp only [hstart, if_false] at hr
                refine ⟨hact, hmatch, Nat.le_of_not_lt hstart, ?_⟩
                intro e he
                rw [he] at hr
                by_cases hend : e < d.administration_date
                · simp [hend] at hr
                · exact Nat.le_of_not_lt hend
            · simp [bne_iff_ne, hmatch] at hr
          · simp [hact] at hr
    · rintro ⟨hc, a, ha, hact, hmatch, hstart, hend⟩
      rw [Option.isSome_iff_exists] at hc
      obtain ⟨child, hc⟩ := hc
      unfold create_medication_log
      rw [hc, ha]
      simp only [hact, Bool.not_true, Bool.false_eq_true, if_false,
        hmatch, bne_self_eq_false, Nat.not_lt_of_le hstart, if_false]
      cases he : a.end_date with
      | none => exact ⟨_, rfl⟩
      | some e =>
        have := hend e he
        simp only [Nat.not_lt_of_le this, if_false]
        exact ⟨_, rfl⟩
  · intro hc
    unfold create_medication_log
    rw [hc]
  · intro hc ha
    rw [Option.isSome_iff_exists] at hc
    obtain ⟨child, hc⟩ := hc
    unfold create_medication_log
    rw [hc, ha]
  · intro a hc ha hviol
    rw [Option.isSome_iff_exists] at hc
    obtain ⟨child, hc⟩ := hc
    unfold create_medication_log
    rw [hc, ha]
    rcases hviol with hact | hmatch | hstart | ⟨e, he, hend⟩
    · simp [hact]
    · simp only [Ne, ← bne_iff_ne] at hmatch
      by_cases hact : a.is_active
      · simp [hact, hmatch]
      · simp [hact]
    · by_cases hact : a.is_active
      · by_cases hmatch : a.child_id = d.child_id
        · simp [hact, hmatch, hstart]
        · simp [hact, bne_iff_ne, hmatch]
      · simp [hact]
    · by_cases hact : a.is_active
      · by_cases hmatch : a.child_id = d.child_id
        · by_cases hstart : d.administration_date < a.start_date
          · simp [hact, hmatch, hstart]
          · simp [hact, hmatch, hstart, he, hend]
        · simp [hact, bne_iff_ne, hmatch]
      · simp [hact]
  · intro tbl log hr
    unfold create_medication_log at hr
    cases hc : children.find? (fun c => c.id == d.child_id) with
    | none => rw [hc] at hr; exact absurd hr (by simp)
    | some child =>
      rw [hc] at hr
      cases ha : auths.find? (fun a => a.id == d.authorization_id) with
      | none => rw [ha] at hr; exact absurd hr (by simp)
      | some a =>
        rw [ha] at hr
        by_cases hact : a.is_active
        · simp only [hact, Bool.not_true, Bool.false_eq_true, if_false] at hr
          by_cases hmatch : a.child_id = d.child_id
          · simp only [hmatch, bne_self_eq_false, Bool.false_eq_true,
              if_false] at hr
            by_cases hstart : d.administration_date < a.start_date
            · simp [hstart] at hr
            · simp only [hstart, if_false] at hr
              cases he : a.end_date with
              | none =>
                rw [he] at hr
                obtain ⟨h1, h2⟩ := Prod.mk.injEq .. ▸ (Except.ok.injEq .. ▸ hr)
                rw [← h1, ← h2]
              | some e =>
                rw [he] at hr
                by_cases hend : e < d.administration_date
                · simp [hend] at hr
                · simp only [hend, if_false] at hr
                  obtain ⟨h1, h2⟩ := Prod.mk.injEq .. ▸ (Except.ok.injEq .. ▸ hr)
                  rw [← h1, ← h2]
          · simp [bne_iff_ne, hmatch] at hr
        · simp [hact] at hr

/-- Witness for C1: a concrete request satisfying every precondition is
created. -/
theorem create_medication_log_spec_witness :
    ∃ r, create_medication_log [⟨1, "Lucas", "Smith", true⟩]
      [⟨2, 1, 10, some 20, true⟩] [] 7 5 ⟨1, 2, 15⟩ = .ok r :=
  (create_medication_log_spec [⟨1, "Lucas", "Smith", true⟩]
      [⟨2, 1, 10, some 20, true⟩] [] 7 5 ⟨1, 2, 15⟩).1.mpr
    ⟨by decide, ⟨2, 1, 10, some 20, true⟩, by decide, rfl, rfl, by decide,
      fun e he => by cases he; decide⟩

/-- Counterexample to C2 as stated: checking out at 18:15:30
(65730 seconds) with a 15-minute grace period is strictly later than
18:00 plus the grace period (65700 seconds), so the claim demands
`is_late_pickup = true`; the code truncates the lateness to whole minutes
(`int(total_seconds / 60)` gives 15, not > 15) and leaves the record not
late. -/
theorem check_out_child_grace_boundary_counterexample :
    STANDARD_PICKUP_SECONDS + 15 * 60 < 65730 ∧
    check_out_child [⟨1, 2, 100, 28800, none, false, 0⟩] 1 65730 15 =
      .ok ([⟨1, 2, 100, 28800, some 65730, false, 0⟩],
           ⟨1, 2, 100, 28800, some 65730, false, 0⟩) :=
  ⟨by decide, rfl⟩

/-- C2 (amended): lateness is measured in whole minutes — with
`m = ⌊(t − 18:00) / 60⌋` truncated minutes past 18:00, a checkout of a
not-yet-checked-out record at time `t` with grace `g` leaves
`is_late_pickup` false and `late_pickup_minutes` 0 when `m ≤ g`, and sets
`is_late_pickup` true with `late_pickup_minutes = m − g` when `m > g`. -/
theorem check_out_child_lateness (tbl : List Attendance) (aid t g : Nat)
    (att : Attendance)
    (hfind : tbl.find? (fun a => a.id == aid) = some att)
    (hnot : att.check_out_time = none)
    (hlate : att.is_late_pickup = false)
    (hmin : att.late_pickup_minutes = 0) :
    ∃ tbl' att', check_out_child tbl aid t g = .ok (tbl', att') ∧
      att'.check_out_time = some t ∧
      ((t - STANDARD_PICKUP_SECONDS) / 60 ≤ g →
        att'.is_late_pickup = false ∧ att'.late_pickup_minutes = 0) ∧
      (g < (t - STANDARD_PICKUP_SECONDS) / 60 →
        att'.is_late_pickup = true ∧
        att'.late_pickup_minutes = (t - STANDARD_PICKUP_SECONDS) / 60 - g) := by
  unfold check_out_child
  rw [hfind]
  simp only [hnot, Option.isSome_none, Bool.false_eq_true, if_false]
  by_cases hp : STANDARD_PICKUP_SECONDS < t
  · by_cases hg : g < (t - STANDARD_PICKUP_SECONDS) / 60
    · simp only [hp, if_true, hg]
      exact ⟨_, _, rfl, rfl,
        fun h => absurd hg (Nat.not_lt_of_le h),
        fun _ => ⟨rfl, rfl⟩⟩
    · simp only [hp, if_true, hg, if_false]
      exact ⟨_, _, rfl, rfl,
        fun _ => ⟨hlate, hmin⟩,
        fun h => h.elim⟩
  · have hm : (t - STANDARD_PICKUP_SECONDS) / 60 = 0 := by
      rw [Nat.sub_eq_zero_of_le (Nat.le_of_not_lt hp)]
    simp only [hp, if_false]
    exact ⟨_, _, rfl, rfl,
      fun _ => ⟨hlate, hmin⟩,
      fun h => absurd h (hm ▸ Nat.not_lt_zero g)⟩

/-- Witness for the amended C2: the spec's own scenario — checkout at
18:20 with grace 15 yields 5 billable late minutes. -/
theorem check_out_child_lateness_witness :
    ∃ tbl' att',
      check_out_child [⟨1, 2, 100, 28800, none, false, 0⟩] 1 66000 15 =
        .ok (tbl', att') ∧
      att'.check_out_time = some 66000 ∧
      ((66000 - STANDARD_PICKUP_SECONDS) / 60 ≤ 15 →
        att'.is_late_pickup = false ∧ att'.late_pickup_minutes = 0) ∧
      (15 < (66000 - STANDARD_PICKUP_SECONDS) / 60 →
        att'.is_late_pickup = true ∧
        att'.late_pickup_minutes = (66000 - STANDARD_PICKUP_SECONDS) / 60 - 15) :=
  check_out_child_lateness [⟨1, 2, 100, 28800, none, false, 0⟩] 1 66000 15
    ⟨1, 2, 100, 28800, none, false, 0⟩ rfl rfl rfl rfl

/-- C3: when no active authorized-pickup record of the child matches the
queried name, the verification response is the bare denial — carrying no
pickup-person detail, and computed independently of every record's
identification notes and password hints (erasing all of them changes
nothing); when a matching active record exists, the response is the grant
with that record's detail, in which `password_hint` is null unless
`requires_password` is true. -/
theorem verify_pickup_authorization_no_leak (children : List Child)
    (pickups : List AuthorizedPickup) (cid : Nat) (q : String) (child : Child)
    (hc : children.find? (fun c => c.id == cid) = some child) :
    (pickups.find? (fun p =>
        p.child_id == cid && ilike_contains q p.name && p.is_active) = none →
      verify_pickup_authorization children pickups cid q =
        .ok (.denied cid (child.first_name ++ " " ++ child.last_name) q
          "This person is NOT authorized to pick up this child") ∧
      verify_pickup_authorization children (erase_pickup_secrets pickups) cid q =
        verify_pickup_authorization children pickups cid q) ∧
    (∀ m, pickups.find? (fun p =>
        p.child_id == cid && ilike_contains q p.name && p.is_active) = some m →
      verify_pickup_authorization children pickups cid q =
        .ok (.granted cid (child.first_name ++ " " ++ child.last_name)
          { id := m.id
            name := m.name
            relationship_type := m.relationship_type
            phone := m.phone
            photo_url := m.photo_url
            requires_password := m.requires_password
            password_hint :=
              if m.requires_password then m.password_hint else none
            identification_notes := m.identification_notes }
          "This person IS authorized to pick up this child")) ∧
    (∀ c n det msg,
      verify_pickup_authorization children pickups cid q =
        .ok (.granted c n det msg) →
      det.requires_password = false → det.password_hint = none) := by
  have herase : (erase_pickup_secrets pickups).find? (fun p =>
      p.child_id == cid && ilike_contains q p.name && p.is_active) =
      (pickups.find? (fun p =>
        p.child_id == cid && ilike_contains q p.name && p.is_active)).map
        (fun p => { p with identification_notes := none,
                           password_hint := none }) := by
    unfold erase_pickup_secrets
    exact List.find?_map _ pickups
  refine ⟨?_, ?_, ?_⟩
  · intro hnone
    constructor
    · unfold verify_pickup_authorization
      rw [hc, hnone]
    · unfold verify_pickup_authorization
      rw [hc, herase, hnone]
      rfl
  · intro m hm
    unfold verify_pickup_authorization
    rw [hc, hm]
  · intro c n det msg hres hreq
    unfold verify_pickup_authorization at hres
    rw [hc] at hres
    cases hm : pickups.find? (fun p =>
        p.child_id == cid && ilike_contains q p.name && p.is_active) with
    | none => rw [hm] at hres; exact absurd hres (by simp)
    | some m =>
      rw [hm] at hres
      have hdet : det =
          { id := m.id
            name := m.name
            relationship_type := m.relationship_type
            phone := m.phone
            photo_url := m.photo_url
            requires_password := m.requires_password
            password_hint :=
              if m.requires_password then m.password_hint else none
            identification_notes := m.identification_notes } := by
        have := (Except.ok.injEq .. ▸ hres)
        cases this
        rfl
      rw [hdet] at hreq ⊢
      simp only at hreq ⊢
      rw [if_neg]
      rw [hreq]
      simp

/-- Witness for C3: in a database whose only pickup record for the child
is "Jane Doe", verifying the stranger "John Roe" is denied with no detail
and insensitive to secret erasure. -/
theorem verify_pickup_authorization_no_leak_witness :
    verify_pickup_authorization [⟨1, "Lucas", "Smith", true⟩]
      [⟨4, 1, "Jane Doe", "aunt", "555", none, some "scar on arm", true,
        some "pet name", true⟩] 1 "John Roe" =
      .ok (.denied 1 "Lucas Smith" "John Roe"
        "This person is NOT authorized to pick up this child") ∧
    verify_pickup_authorization [⟨1, "Lucas", "Smith", true⟩]
      (erase_pickup_secrets
        [⟨4, 1, "Jane Doe", "aunt", "555", none, some "scar on arm", true,
          some "pet name", true⟩]) 1 "John Roe" =
      verify_pickup_authorization [⟨1, "Lucas", "Smith", true⟩]
        [⟨4, 1, "Jane Doe", "aunt", "555", none, some "scar on arm", true,
          some "pet name", true⟩] 1 "John Roe" :=
  (verify_pickup_authorization_no_leak [⟨1, "Lucas", "Smith", true⟩]
      [⟨4, 1, "Jane Doe", "aunt", "555", none, some "scar on arm", true,
        some "pet name", true⟩] 1 "John Roe" ⟨1, "Lucas", "Smith", true⟩
      rfl).1 (by decide)

/-- C4: an emergency-contact delete fails with 400 Bad Request whenever it
would leave the contact's child with fewer than 2 contacts, and after any
successful delete the child keeps at least 2 contacts. -/
theorem delete_emergency_contact_floor (contacts : List EmergencyContact)
    (contact_id : Nat) :
    (∀ contact, contacts.find? (fun c => c.id == contact_id) = some contact →
      (contacts.filter (fun c => c.child_id == contact.child_id)).length - 1 < 2 →
      delete_emergency_contact contacts contact_id =
        .error HTTP_400_BAD_REQUEST) ∧
    (∀ contacts' contact,
      delete_emergency_contact contacts contact_id = .ok contacts' →
      contacts.find? (fun c => c.id == contact_id) = some contact →
      2 ≤ (contacts'.filter (fun c => c.child_id == contact.child_id)).length) := by
  constructor
  · intro contact hfind hlow
    unfold delete_emergency_contact
    simp only [hfind]
    rw [if_pos (by omega)]
  · intro contacts' contact hok hfind
    unfold delete_emergency_contact at hok
    simp only [hfind] at hok
    by_cases hcount :
        (contacts.filter (fun c => c.child_id == contact.child_id)).length ≤ 2
    · rw [if_pos hcount] at hok
      exact absurd hok (by simp)
    · rw [if_neg hcount] at hok
      have herase := length_filter_eraseP_of_find?
        (fun c => c.id == contact_id)
        (fun c => c.child_id == contact.child_id) contacts contact hfind
        (by simp)
      have hcs : contacts' = contacts.eraseP (fun c => c.id == contact_id) := by
        have h := Except.ok.injEq .. ▸ hok
        exact h.symm
      rw [hcs]
      omega

/-- Witness for C4: with exactly two contacts on the child, deleting one is
refused with 400 Bad Request. -/
theorem delete_emergency_contact_floor_witness :
    delete_emergency_contact [⟨1, 5, 1⟩, ⟨2, 5, 2⟩] 1 =
      .error HTTP_400_BAD_REQUEST :=
  (delete_emergency_contact_floor [⟨1, 5, 1⟩, ⟨2, 5, 2⟩] 1).1 ⟨1, 5, 1⟩ rfl
    (by decide)

/-- C5: check-in fails with 404 Not Found when the child does not exist,
with 400 Bad Request when the child is inactive or an attendance row of
that child already exists for the current date; a successful check-in
appends exactly one row for (child, today), so the
at-most-one-attendance-row-per-(child, date) invariant is preserved. -/
theorem check_in_child_unique_per_day (children : List Child)
    (attendance_tbl : List Attendance) (attendance_data : AttendanceCreate)
    (today new_id : Nat) :
    (children.find? (fun c => c.id == attendance_data.child_id) = none →
      check_in_child children attendance_tbl attendance_data today new_id =
        .error HTTP_404_NOT_FOUND) ∧
    (∀ child,
      children.find? (fun c => c.id == attendance_data.child_id) = some child →
      child.is_active = false →
      check_in_child children attendance_tbl attendance_data today new_id =
        .error HTTP_400_BAD_REQUEST) ∧
    (∀ child,
      children.find? (fun c => c.id == attendance_data.child_id) = some child →
      child.is_active = true →
      (attendance_tbl.find? (fun a =>
        a.child_id == attendance_data.child_id &&
          a.attendance_date == today)).isSome →
      check_in_child children attendance_tbl attendance_data today new_id =
        .error HTTP_400_BAD_REQUEST) ∧
    (∀ tbl' att,
      check_in_child children attendance_tbl attendance_data today new_id =
        .ok (tbl', att) →
      tbl' = attendance_tbl ++ [att] ∧
      att.child_id = attendance_data.child_id ∧
      att.attendance_date = today ∧
      (at_most_one_per_child_date attendance_tbl →
        at_most_one_per_child_date tbl')) := by
  refine ⟨?_, ?_, ?_, ?_⟩
  · intro hc
    unfold check_in_child
    rw [hc]
  · intro child hc hina
    unfold check_in_child
    rw [hc]
    simp [hina]
  · intro child hc hact hdup
    rw [Option.isSome_iff_exists] at hdup
    obtain ⟨row, hrow⟩ := hdup
    unfold check_in_child
    rw [hc]
    simp only [hact, Bool.not_true, Bool.false_eq_true, if_false]
    rw [hrow]
  · intro tbl' att hok
    unfold check_in_child at hok
    cases hc : children.find? (fun c => c.id == attendance_data.child_id) with
    | none => rw [hc] at hok; exact absurd hok (by simp)
    | some child =>
      rw [hc] at hok
      by_cases hact : child.is_active
      · simp only [hact, Bool.not_true, Bool.false_eq_true, if_false] at hok
        cases hdup : attendance_tbl.find? (fun a =>
            a.child_id == attendance_data.child_id &&
              a.attendance_date == today) with
        | some row => rw [hdup] at hok; exact absurd hok (by simp)
        | none =>
          rw [hdup] at hok
          obtain ⟨h1, h2⟩ := Prod.mk.injEq .. ▸ (Except.ok.injEq .. ▸ hok)
          subst h1
          subst h2
          refine ⟨rfl, rfl, rfl, ?_⟩
          intro hinv
          unfold at_most_one_per_child_date at hinv ⊢
          rw [List.pairwise_append]
          refine ⟨hinv, by simp, ?_⟩
          intro a ha b hb
          simp only [List.mem_singleton] at hb
          subst hb
          have hno := List.find?_eq_none.mp hdup a ha
          simp only [Bool.and_eq_true, beq_iff_eq] at hno
          rintro ⟨hcid, hdate⟩
          exact hno ⟨hcid, hdate⟩
      · rw [Bool.not_eq_true] at hact
        simp [hact] at hok

/-- Witness for C5: a fresh check-in on an empty attendance table succeeds
and the one-row-per-(child, date) invariant holds afterwards. -/
theorem check_in_child_unique_per_day_witness :
    ∃ tbl' att,
      check_in_child [⟨1, "Lucas", "Smith", true⟩] [] ⟨1, 28800⟩ 100 9 =
        .ok (tbl', att) ∧
      (tbl' = [] ++ [att] ∧ att.child_id = 1 ∧ att.attendance_date = 100 ∧
        (at_most_one_per_child_date [] → at_most_one_per_child_date tbl')) :=
  have h : check_in_child [⟨1, "Lucas", "Smith", true⟩] [] ⟨1, 28800⟩ 100 9 =
      .ok ([⟨9, 1, 100, 28800, none, false, 0⟩],
           ⟨9, 1, 100, 28800, none, false, 0⟩) := rfl
  ⟨_, _, h,
    (check_in_child_unique_per_day [⟨1, "Lucas", "Smith", true⟩] [] ⟨1, 28800⟩
      100 9).2.2.2 _ _ h⟩

/-- A `filterMap` whose function is total on the list is a `map`. -/
theorem map_filterMap_eq_map {α β γ : Type} (l : List α) (f : α → Option β)
    (g : β → γ) (h : α → γ)
    (H : ∀ a ∈ l, ∃ b, f a = some b ∧ g b = h a) :
    (l.filterMap f).map g = l.map h := by
  induction l with
  | nil => rfl
  | cons x xs ih =>
    obtain ⟨b, hb, hgb⟩ := H x (List.mem_cons_self x xs)
    rw [List.filterMap_cons, hb]
    simp only [List.map_cons, hgb]
    rw [ih (fun a ha => H a (List.mem_cons_of_mem x ha))]

/-- C6: under referential integrity (each record's child row and each
credential's user row exists), the "expiring soon" queries return exactly
the records whose expiration date is non-null and lies in the closed
interval `[today, today + days]` — no record before today or beyond the
window appears. -/
theorem expiring_window_exact (children : List Child) (users : List User)
    (records : List ImmunizationRecord) (credentials : List StaffCredential)
    (days today : Nat)
    (hri : ∀ r ∈ records, (children.find? (fun c => c.id == r.child_id)).isSome)
    (hci : ∀ c ∈ credentials, (users.find? (fun u => u.id == c.user_id)).isSome) :
    (get_expiring_immunizations children records days today).map (·.record_id) =
      (records.filter (fun r => r.expiration_date.elim false
        (fun e => decide (today ≤ e ∧ e ≤ today + days)))).map (·.id) ∧
    (get_expiring_credentials users credentials days today).map (·.credential_id) =
      (credentials.filter (fun c => c.expiration_date.elim false
        (fun e => decide (today ≤ e ∧ e ≤ today + days)))).map (·.id) := by
  constructor
  · have hfilter : records.filter (fun r =>
        match r.expiration_date with
        | none => false
        | some e => decide (e ≤ today + days) && decide (today ≤ e)) =
        records.filter (fun r => r.expiration_date.elim false
          (fun e => decide (today ≤ e ∧ e ≤ today + days))) := by
      apply List.filter_congr
      intro r _
      cases r.expiration_date with
      | none => rfl
      | some e =>
        by_cases h1 : today ≤ e <;> by_cases h2 : e ≤ today + days <;>
          simp [h1, h2]
    simp only [get_expiring_immunizations]
    rw [hfilter]
    apply map_filterMap_eq_map
    intro r hr
    have hmem := (List.mem_filter.mp hr).1
    have hpred := (List.mem_filter.mp hr).2
    cases he : r.expiration_date with
    | none => rw [he] at hpred; simp [Option.elim] at hpred
    | some e =>
      have hch := hri r hmem
      rw [Option.isSome_iff_exists] at hch
      obtain ⟨child, hch⟩ := hch
      rw [hch]
      exact ⟨_, rfl, rfl⟩
  · have hfilter : credentials.filter (fun c =>
        match c.expiration_date with
        | none => false
        | some e => decide (e ≤ today + days) && decide (today ≤ e)) =
        credentials.filter (fun c => c.expiration_date.elim false
          (fun e => decide (today ≤ e ∧ e ≤ today + days))) := by
      apply List.filter_congr
      intro c _
      cases c.expiration_date with
      | none => rfl
      | some e =>
        by_cases h1 : today ≤ e <;> by_cases h2 : e ≤ today + days <;>
          simp [h1, h2]
    simp only [get_expiring_credentials]
    rw [hfilter]
    apply map_filterMap_eq_map
    intro c hc
    have hmem := (List.mem_filter.mp hc).1
    have hpred := (List.mem_filter.mp hc).2
    cases he : c.expiration_date with
    | none => rw [he] at hpred; simp [Option.elim] at hpred
    | some e =>
      have hus := hci c hmem
      rw [Option.isSome_iff_exists] at hus
      obtain ⟨user, hus⟩ := hus
      rw [hus]
      exact ⟨_, rfl, rfl⟩

/-- Witness for C6: a two-record, two-credential database — one of each in
the window, one of each already expired — yields exactly the in-window
ids. -/
theorem expiring_window_exact_witness :
    (get_expiring_immunizations [⟨1, "Lucas", "Smith", true⟩]
      [⟨10, 1, "MMR", some 110, true⟩, ⟨11, 1, "DTaP", some 90, true⟩]
      30 100).map (·.record_id) =
      (([⟨10, 1, "MMR", some 110, true⟩, ⟨11, 1, "DTaP", some 90, true⟩] :
          List ImmunizationRecord).filter
        (fun r => r.expiration_date.elim false
          (fun e => decide (100 ≤ e ∧ e ≤ 100 + 30)))).map (·.id) ∧
    (get_expiring_credentials [⟨2, "Netta", "Jones"⟩]
      [⟨20, 2, "CPR", some 120, true, false⟩,
       ⟨21, 2, "First Aid", some 99, true, true⟩] 30 100).map
        (·.credential_id) =
      (([⟨20, 2, "CPR", some 120, true, false⟩,
         ⟨21, 2, "First Aid", some 99, true, true⟩] :
          List StaffCredential).filter
        (fun c => c.expiration_date.elim false
          (fun e => decide (100 ≤ e ∧ e ≤ 100 + 30)))).map (·.id) :=
  expiring_window_exact [⟨1, "Lucas", "Smith", true⟩] [⟨2, "Netta", "Jones"⟩]
    [⟨10, 1, "MMR", some 110, true⟩, ⟨11, 1, "DTaP", some 90, true⟩]
    [⟨20, 2, "CPR", some 120, true, false⟩,
     ⟨21, 2, "First Aid", some 99, true, true⟩] 30 100
    (by decide) (by decide)

/-- Counterexample to C7 as stated: with the (child 1, parent 2) pair
already linked and an enrollment form already on file for child 1,
re-creating either fails with HTTP 400 Bad Request, not 409 Conflict. -/
theorem duplicate_create_conflict_counterexample :
    create_child_parent_relationship [⟨1, "Lucas", "Smith", true⟩] [⟨2⟩]
      [⟨3, 1, 2⟩] ⟨1, 2⟩ 9 = .error HTTP_400_BAD_REQUEST ∧
    create_enrollment_form [⟨1, "Lucas", "Smith", true⟩]
      [⟨4, 1, false, none⟩] ⟨1, false⟩ 7 9 = .error HTTP_400_BAD_REQUEST ∧
    HTTP_400_BAD_REQUEST ≠ HTTP_409_CONFLICT :=
  ⟨rfl, rfl, by decide⟩

/-- C7 (amended): creating a child-parent link for an already-linked
(child, parent) pair, and creating an enrollment form for a child that
already has one, each fail with HTTP 400 Bad Request (the code never
answers 409 Conflict here) and leave the database unchanged. -/
theorem duplicate_create_bad_request (children : List Child)
    (parents : List Parent) (relationships : List ChildParent)
    (forms : List EnrollmentForm) (rel_data : ChildParentCreate)
    (form_data : EnrollmentFormCreate) (uid nid : Nat) :
    ((children.find? (fun c => c.id == rel_data.child_id)).isSome →
      (parents.find? (fun p => p.id == rel_data.parent_id)).isSome →
      (relationships.find? (fun r =>
        r.child_id == rel_data.child_id &&
          r.parent_id == rel_data.parent_id)).isSome →
      create_child_parent_relationship children parents relationships
        rel_data nid = .error HTTP_400_BAD_REQUEST) ∧
    ((children.find? (fun c => c.id == form_data.child_id)).isSome →
      (forms.find? (fun f => f.child_id == form_data.child_id)).isSome →
      create_enrollment_form children forms form_data uid nid =
        .error HTTP_400_BAD_REQUEST) := by
  constructor
  · intro hc hp hr
    rw [Option.isSome_iff_exists] at hc hp hr
    obtain ⟨child, hc⟩ := hc
    obtain ⟨parent, hp⟩ := hp
    obtain ⟨rel, hr⟩ := hr
    unfold create_child_parent_relationship
    rw [hc, hp, hr]
  · intro hc hf
    rw [Option.isSome_iff_exists] at hc hf
    obtain ⟨child, hc⟩ := hc
    obtain ⟨form, hf⟩ := hf
    unfold create_enrollment_form
    rw [hc, hf]

/-- Witness for the amended C7: the concrete duplicate pair and duplicate
form from the counterexample database are both rejected with 400. -/
theorem duplicate_create_bad_request_witness :
    create_child_parent_relationship [⟨1, "Lucas", "Smith", true⟩] [⟨2⟩]
      [⟨3, 1, 2⟩] ⟨1, 2⟩ 9 = .error HTTP_400_BAD_REQUEST ∧
    create_enrollment_form [⟨1, "Lucas", "Smith", true⟩]
      [⟨4, 1, false, none⟩] ⟨1, false⟩ 7 9 = .error HTTP_400_BAD_REQUEST :=
  ⟨(duplicate_create_bad_request [⟨1, "Lucas", "Smith", true⟩] [⟨2⟩]
      [⟨3, 1, 2⟩] [⟨4, 1, false, none⟩] ⟨1, 2⟩ ⟨1, false⟩ 7 9).1
      (by decide) (by decide) (by decide),
   (duplicate_create_bad_request [⟨1, "Lucas", "Smith", true⟩] [⟨2⟩]
      [⟨3, 1, 2⟩] [⟨4, 1, false, none⟩] ⟨1, 2⟩ ⟨1, false⟩ 7 9).2
      (by decide) (by decide)⟩

/-- `reorder_shift` never changes a row's child. -/
theorem reorder_shift_child_id (ct : EmergencyContact) (cid : Nat) (np : Int)
    (c : EmergencyContact) :
    (reorder_shift ct cid np c).child_id = c.child_id := by
  unfold reorder_shift
  split_ifs <;> rfl

/-- `reorder_shift` leaves rows of other children untouched. -/
theorem reorder_shift_other_child (ct : EmergencyContact) (cid : Nat)
    (np : Int) (c : EmergencyContact) (h : c.child_id ≠ ct.child_id) :
    reorder_shift ct cid np c = c := by
  unfold reorder_shift
  rw [if_neg (by simpa using h)]

/-- `reorder_shift` gives the moved contact the new priority. -/
theorem reorder_shift_moved (ct : EmergencyContact) (cid : Nat) (np : Int)
    (c : EmergencyContact) (hchild : c.child_id = ct.child_id)
    (hid : c.id = cid) :
    reorder_shift ct cid np c = { c with priority_order := np } := by
  unfold reorder_shift
  rw [if_pos (by simpa using hchild), if_pos (by simpa using hid)]

/-- On a non-moved row of the same child, `reorder_shift` acts as
`shift_priority` on the priority. -/
theorem reorder_shift_same_child (ct : EmergencyContact) (cid : Nat)
    (np : Int) (c : EmergencyContact) (hchild : c.child_id = ct.child_id)
    (hid : c.id ≠ cid) :
    reorder_shift ct cid np c =
      { c with priority_order :=
          shift_priority ct.priority_order np c.priority_order } := by
  unfold reorder_shift shift_priority
  rw [if_pos (by simpa using hchild), if_neg (by simpa using hid)]
  split_ifs <;> rfl

/-- A shifted priority never collides with the target priority. -/
theorem shift_priority_ne (old np p : Int) (hne : old ≠ np) (hp : p ≠ old) :
    shift_priority old np p ≠ np := by
  unfold shift_priority
  split_ifs <;> omega

/-- `shift_priority` is injective away from the moved priority. -/
theorem shift_priority_inj (old np p q : Int) (hp : p ≠ old) (hq : q ≠ old)
    (h : shift_priority old np p = shift_priority old np q) : p = q := by
  unfold shift_priority at h
  split_ifs at h <;> omega

/-- `shift_priority` maps `[1, n]` into `[1, n]` when the old and new
priorities lie in `[1, n]`. -/
theorem shift_priority_range (old np p n : Int) (h1 : 1 ≤ p) (h2 : p ≤ n)
    (h3 : 1 ≤ old) (h4 : old ≤ n) (h5 : 1 ≤ np) (h6 : np ≤ n) :
    1 ≤ shift_priority old np p ∧ shift_priority old np p ≤ n := by
  unfold shift_priority
  split_ifs <;> constructor <;> omega

/-- Counterexample to C8 as stated: on a child with contiguous priorities
[1, 2], reordering the priority-1 contact to priority 5 yields priorities
[5, 1] — uniqueness survives but contiguity does not, because the target
priority lies outside the existing range. -/
theorem reorder_contiguity_counterexample :
    ContiguousFromOne (child_priorities [⟨1, 5, 1⟩, ⟨2, 5, 2⟩] 5) ∧
    reorder_emergency_contact [⟨1, 5, 1⟩, ⟨2, 5, 2⟩] 1 5 =
      .ok [⟨1, 5, 5⟩, ⟨2, 5, 1⟩] ∧
    ¬ ContiguousFromOne (child_priorities [⟨1, 5, 5⟩, ⟨2, 5, 1⟩] 5) := by
  refine ⟨?_, rfl, ?_⟩
  · intro k
    have h : child_priorities [⟨1, 5, 1⟩, ⟨2, 5, 2⟩] 5 = [1, 2] := rfl
    rw [h]
    simp only [List.mem_cons, List.not_mem_nil, or_false, List.length_cons,
      List.length_nil]
    norm_num
    omega
  · intro h
    have h2 := (h 2).mpr (by norm_num [child_priorities])
    have h3 : child_priorities [⟨1, 5, 5⟩, ⟨2, 5, 1⟩] 5 = [5, 1] := rfl
    rw [h3] at h2
    simp at h2

/-- C8 (amended): reordering a contact with pairwise-distinct per-child
priorities to the same priority changes nothing; to a different priority,
rows of other children are untouched, the moved contact gets the new
priority, every other contact of the child with priority in `[new, old)`
gains 1 when `new < old` and every other contact with priority in
`(old, new]` loses 1 when `new > old` (all others keep their priority);
per-child priority uniqueness is preserved for every child, and contiguity
is preserved provided the new priority lies within `[1, n]` for the
child's `n` contacts — a target outside that range breaks contiguity, as
the counterexample shows. -/
theorem reorder_emergency_contact_spec (contacts : List EmergencyContact)
    (contact_id : Nat) (new_priority : Int) (contact : EmergencyContact)
    (hfind : contacts.find? (fun c => c.id == contact_id) = some contact)
    (hids : (contacts.map (fun c => c.id)).Nodup)
    (hprio : (child_priorities contacts contact.child_id).Nodup) :
    (contact.priority_order = new_priority →
      reorder_emergency_contact contacts contact_id new_priority =
        .ok contacts) ∧
    (contact.priority_order ≠ new_priority →
      ∃ contacts',
        reorder_emergency_contact contacts contact_id new_priority =
          .ok contacts' ∧
        (∀ c ∈ contacts, c.id ≠ contact_id →
          (c.child_id ≠ contact.child_id → c ∈ contacts') ∧
          (c.child_id = contact.child_id →
            (new_priority < contact.priority_order →
              (new_priority ≤ c.priority_order ∧
                  c.priority_order < contact.priority_order →
                { c with priority_order := c.priority_order + 1 } ∈
                  contacts') ∧
              (¬(new_priority ≤ c.priority_order ∧
                  c.priority_order < contact.priority_order) →
                c ∈ contacts')) ∧
            (contact.priority_order < new_priority →
              (contact.priority_order < c.priority_order ∧
                  c.priority_order ≤ new_priority →
                { c with priority_order := c.priority_order - 1 } ∈
                  contacts') ∧
              (¬(contact.priority_order < c.priority_order ∧
                  c.priority_order ≤ new_priority) →
                c ∈ contacts')))) ∧
        ({ contact with priority_order := new_priority } ∈ contacts') ∧
        (∀ k, (child_priorities contacts k).Nodup →
          (child_priorities contacts' k).Nodup) ∧
        (ContiguousFromOne (child_priorities contacts contact.child_id) →
          1 ≤ new_priority →
          new_priority ≤
            ((child_priorities contacts contact.child_id).length : Int) →
          ContiguousFromOne (child_priorities contacts' contact.child_id))) := by
  have hidc : contact.id = contact_id := by
    have h := List.find?_some hfind
    simpa using h
  have hmem : contact ∈ contacts := List.mem_of_find?_eq_some hfind
  have hinj_id : ∀ c ∈ contacts, c.id = contact_id → c = contact := by
    intro c hc h
    exact List.inj_on_of_nodup_map hids hc hmem (by rw [h, hidc])
  constructor
  · intro hEq
    unfold reorder_emergency_contact
    simp only [hfind]
    rw [hEq]
    simp
  · intro hne
    have hbeq : (contact.priority_order == new_priority) = false := by
      simpa using hne
    have hres : reorder_emergency_contact contacts contact_id new_priority =
        .ok (contacts.map (reorder_shift contact contact_id new_priority)) := by
      unfold reorder_emergency_contact
      simp only [hfind]
      rw [hbeq]
      simp
    have hcp : ∀ k : Nat,
        child_priorities
          (contacts.map (reorder_shift contact contact_id new_priority)) k =
        (contacts.filter (fun c => c.child_id == k)).map
          (fun c =>
            (reorder_shift contact contact_id new_priority c).priority_order) := by
      intro k
      unfold child_priorities
      rw [List.filter_map]
      have hpred : ∀ c ∈ contacts,
          ((fun x => x.child_id == k) ∘
            reorder_shift contact contact_id new_priority) c =
          (fun c => c.child_id == k) c := by
        intro c _
        simp [Function.comp, reorder_shift_child_id]
      rw [List.filter_congr hpred, List.map_map]
      rfl
    have hct_fl : contact ∈
        contacts.filter (fun c => c.child_id == contact.child_id) :=
      List.mem_filter.mpr ⟨hmem, by simp⟩
    have hprio_inj : ∀ a ∈
        contacts.filter (fun c => c.child_id == contact.child_id),
        ∀ b ∈ contacts.filter (fun c => c.child_id == contact.child_id),
        a.priority_order = b.priority_order → a = b := by
      intro a ha b hb hab
      have hprio' : ((contacts.filter
          (fun c => c.child_id == contact.child_id)).map
          (fun c => c.priority_order)).Nodup := hprio
      exact List.inj_on_of_nodup_map hprio' ha hb hab
    refine ⟨_, hres, ?_, ?_, ?_, ?_⟩
    · intro c hc hcid
      constructor
      · intro hch
        have heq := reorder_shift_other_child contact contact_id new_priority
          c hch
        have hm := List.mem_map_of_mem
          (reorder_shift contact contact_id new_priority) hc
        rwa [heq] at hm
      · intro hch
        have heq := reorder_shift_same_child contact contact_id new_priority
          c hch hcid
        have hm := List.mem_map_of_mem
          (reorder_shift contact contact_id new_priority) hc
        rw [heq] at hm
        constructor
        · intro hlt
          constructor
          · intro hwin
            have hval : shift_priority contact.priority_order new_priority
                c.priority_order = c.priority_order + 1 := by
              unfold shift_priority
              rw [if_pos hlt, if_pos hwin]
            rwa [hval] at hm
          · intro hwin
            have hval : shift_priority contact.priority_order new_priority
                c.priority_order = c.priority_order := by
              unfold shift_priority
              rw [if_pos hlt, if_neg hwin]
            rw [hval] at hm
            exact hm
        · intro hgt
          constructor
          · intro hwin
            have hval : shift_priority contact.priority_order new_priority
                c.priority_order = c.priority_order - 1 := by
              unfold shift_priority
              rw [if_neg (by omega), if_pos hwin]
            rwa [hval] at hm
          · intro hwin
            have hval : shift_priority contact.priority_order new_priority
                c.priority_order = c.priority_order := by
              unfold shift_priority
              rw [if_neg (by omega), if_neg hwin]
            rw [hval] at hm
            exact hm
    · have heq := reorder_shift_moved contact contact_id new_priority contact
        rfl hidc
      have hm := List.mem_map_of_mem
        (reorder_shift contact contact_id new_priority) hmem
      rwa [heq] at hm
    · intro k hk
      rw [hcp k]
      by_cases hkc : k = contact.child_id
      · subst hkc
        have hflnodup :
            (contacts.filter
              (fun c => c.child_id == contact.child_id)).Nodup :=
          (List.Nodup.of_map _ hids).filter _
        apply List.Nodup.map_on ?_ hflnodup
        intro x hx y hy hxy
        have hx_mem : x ∈ contacts := (List.mem_filter.mp hx).1
        have hx_child : x.child_id = contact.child_id := by
          simpa using (List.mem_filter.mp hx).2
        have hy_mem : y ∈ contacts := (List.mem_filter.mp hy).1
        have hy_child : y.child_id = contact.child_id := by
          simpa using (List.mem_filter.mp hy).2
        by_cases hxid : x.id = contact_id
        · have hx_eq : x = contact := hinj_id x hx_mem hxid
          by_cases hyid : y.id = contact_id
          · have hy_eq : y = contact := hinj_id y hy_mem hyid
            rw [hx_eq, hy_eq]
          · exfalso
            rw [hx_eq] at hxy
            rw [reorder_shift_moved contact contact_id new_priority contact
              rfl hidc] at hxy
            rw [reorder_shift_same_child contact contact_id new_priority y
              hy_child hyid] at hxy
            have hy_ne : y ≠ contact := fun h => hyid (h ▸ hidc)
            have hy_ne_old : y.priority_order ≠ contact.priority_order :=
              fun h => hy_ne (hprio_inj y hy contact hct_fl h)
            exact shift_priority_ne contact.priority_order new_priority
              y.priority_order hne hy_ne_old hxy.symm
        · by_cases hyid : y.id = contact_id
          · exfalso
            have hy_eq : y = contact := hinj_id y hy_mem hyid
            rw [hy_eq] at hxy
            rw [reorder_shift_moved contact contact_id new_priority contact
              rfl hidc] at hxy
            rw [reorder_shift_same_child contact contact_id new_priority x
              hx_child hxid] at hxy
            have hx_ne : x ≠ contact := fun h => hxid (h ▸ hidc)
            have hx_ne_old : x.priority_order ≠ contact.priority_order :=
              fun h => hx_ne (hprio_inj x hx contact hct_fl h)
            exact shift_priority_ne contact.priority_order new_priority
              x.priority_order hne hx_ne_old hxy
          · rw [reorder_shift_same_child contact contact_id new_priority x
              hx_child hxid,
              reorder_shift_same_child contact contact_id new_priority y
              hy_child hyid] at hxy
            have hx_ne : x ≠ contact := fun h => hxid (h ▸ hidc)
            have hy_ne : y ≠ contact := fun h => hyid (h ▸ hidc)
            have hx_ne_old : x.priority_order ≠ contact.priority_order :=
              fun h => hx_ne (hprio_inj x hx contact hct_fl h)
            have hy_ne_old : y.priority_order ≠ contact.priority_order :=
              fun h => hy_ne (hprio_inj y hy contact hct_fl h)
            exact hprio_inj x hx y hy
              (shift_priority_inj contact.priority_order new_priority
                x.priority_order y.priority_order hx_ne_old hy_ne_old hxy)
      · have hmapeq : (contacts.filter (fun c => c.child_id == k)).map
            (fun c =>
              (reorder_shift contact contact_id new_priority c).priority_order)
            = child_priorities contacts k := by
          unfold child_priorities
          apply List.map_congr_left
          intro c hcf
          have hc_child : c.child_id = k := by
            simpa using (List.mem_filter.mp hcf).2
          rw [reorder_shift_other_child contact contact_id new_priority c
            (by rw [hc_child]; exact hkc)]
        rw [hmapeq]
        exact hk
    · intro hcont h1 h2
      have hlen : ((child_priorities contacts contact.child_id).length : Int) =
          ((contacts.filter
            (fun c => c.child_id == contact.child_id)).length : Int) := by
        unfold child_priorities
        rw [List.length_map]
      have hold_mem : contact.priority_order ∈
          child_priorities contacts contact.child_id :=
        List.mem_map_of_mem (fun c => c.priority_order) hct_fl
      have hold_bounds := (hcont contact.priority_order).mp hold_mem
      rw [hcp contact.child_id]
      intro k
      simp only [List.length_map]
      constructor
      · intro hkmem
        obtain ⟨c, hcf, hck⟩ := List.mem_map.mp hkmem
        have hc_mem : c ∈ contacts := (List.mem_filter.mp hcf).1
        have hc_child : c.child_id = contact.child_id := by
          simpa using (List.mem_filter.mp hcf).2
        by_cases hcid2 : c.id = contact_id
        · have hc_eq : c = contact := hinj_id c hc_mem hcid2
          subst hc_eq
          rw [reorder_shift_moved c contact_id new_priority c rfl hidc]
            at hck
          simp only at hck
          omega
        · rw [reorder_shift_same_child contact contact_id new_priority c
            hc_child hcid2] at hck
          simp only at hck
          have hpc_mem : c.priority_order ∈
              child_priorities contacts contact.child_id :=
            List.mem_map_of_mem (fun c => c.priority_order) hcf
          have hpc_bounds := (hcont c.priority_order).mp hpc_mem
          have hr := shift_priority_range contact.priority_order new_priority
            c.priority_order
            ((child_priorities contacts contact.child_id).length : Int)
            hpc_bounds.1 hpc_bounds.2 hold_bounds.1 hold_bounds.2 h1 h2
          rw [hck] at hr
          exact ⟨hr.1, by omega⟩
      · intro hk
        by_cases hkn : k = new_priority
        · refine List.mem_map.mpr ⟨contact, hct_fl, ?_⟩
          rw [reorder_shift_moved contact contact_id new_priority contact
            rfl hidc]
          simp only
          omega
        · by_cases hlt : new_priority < contact.priority_order
          · by_cases hwin : new_priority < k ∧ k ≤ contact.priority_order
            · have hp_mem : (k - 1) ∈
                  child_priorities contacts contact.child_id :=
                (hcont (k - 1)).mpr ⟨by omega, by omega⟩
              obtain ⟨c, hcf, hcp2⟩ := List.mem_map.mp hp_mem
              have hc_child : c.child_id = contact.child_id := by
                simpa using (List.mem_filter.mp hcf).2
              have hc_ne : c.id ≠ contact_id := by
                intro h
                have hc_eq : c = contact :=
                  hinj_id c (List.mem_filter.mp hcf).1 h
                rw [hc_eq] at hcp2
                omega
              refine List.mem_map.mpr ⟨c, hcf, ?_⟩
              rw [reorder_shift_same_child contact contact_id new_priority c
                hc_child hc_ne]
              simp only
              unfold shift_priority
              rw [if_pos hlt, if_pos ⟨by omega, by omega⟩]
              omega
            · have hk_ne_old : k ≠ contact.priority_order := by omega
              have hp_mem : k ∈
                  child_priorities contacts contact.child_id :=
                (hcont k).mpr ⟨hk.1, by omega⟩
              obtain ⟨c, hcf, hcp2⟩ := List.mem_map.mp hp_mem
              have hc_child : c.child_id = contact.child_id := by
                simpa using (List.mem_filter.mp hcf).2
              have hc_ne : c.id ≠ contact_id := by
                intro h
                have hc_eq : c = contact :=
                  hinj_id c (List.mem_filter.mp hcf).1 h
                rw [hc_eq] at hcp2
                exact hk_ne_old hcp2.symm
              refine List.mem_map.mpr ⟨c, hcf, ?_⟩
              rw [reorder_shift_same_child contact contact_id new_priority c
                hc_child hc_ne]
              simp only
              unfold shift_priority
              rw [if_pos hlt, if_neg (by omega)]
              omega
          · have hgt : contact.priority_order < new_priority := by omega
            by_cases hwin : contact.priority_order ≤ k ∧ k < new_priority
            · have hp_mem : (k + 1) ∈
                  child_priorities contacts contact.child_id :=
                (hcont (k + 1)).mpr ⟨by omega, by omega⟩
              obtain ⟨c, hcf, hcp2⟩ := List.mem_map.mp hp_mem
              have hc_child : c.child_id = contact.child_id := by
                simpa using (List.mem_filter.mp hcf).2
              have hc_ne : c.id ≠ contact_id := by
                intro h
                have hc_eq : c = contact :=
                  hinj_id c (List.mem_filter.mp hcf).1 h
                rw [hc_eq] at hcp2
                omega
              refine List.mem_map.mpr ⟨c, hcf, ?_⟩
              rw [reorder_shift_same_child contact contact_id new_priority c
                hc_child hc_ne]
              simp only
              unfold shift_priority
              rw [if_neg (by omega), if_pos ⟨by omega, by omega⟩]
              omega
            · have hk_ne_old : k ≠ contact.priority_order := by omega
              have hp_mem : k ∈
                  child_priorities contacts contact.child_id :=
                (hcont k).mpr ⟨hk.1, by omega⟩
              obtain ⟨c, hcf, hcp2⟩ := List.mem_map.mp hp_mem
              have hc_child : c.child_id = contact.child_id := by
                simpa using (List.mem_filter.mp hcf).2
              have hc_ne : c.id ≠ contact_id := by
                intro h
                have hc_eq : c = contact :=
                  hinj_id c (List.mem_filter.mp hcf).1 h
                rw [hc_eq] at hcp2
                exact hk_ne_old hcp2.symm
              refine List.mem_map.mpr ⟨c, hcf, ?_⟩
              rw [reorder_shift_same_child contact contact_id new_priority c
                hc_child hc_ne]
              simp only
              unfold shift_priority
              rw [if_neg (by omega), if_neg (by omega)]
              omega

/-- Witness for the amended C8: on priorities [1, 2, 3], moving the
priority-3 contact to priority 1 succeeds, places the moved contact at
priority 1, and preserves per-child priority uniqueness. -/
theorem reorder_emergency_contact_spec_witness :
    ∃ contacts',
      reorder_emergency_contact [⟨1, 5, 1⟩, ⟨2, 5, 2⟩, ⟨3, 5, 3⟩] 3 1 =
        .ok contacts' ∧
      ({ (⟨3, 5, 3⟩ : EmergencyContact) with priority_order := 1 } ∈
        contacts') ∧
      (∀ k, (child_priorities [⟨1, 5, 1⟩, ⟨2, 5, 2⟩, ⟨3, 5, 3⟩] k).Nodup →
        (child_priorities contacts' k).Nodup) := by
  obtain ⟨l, hres, _, hmoved, hnodup, _⟩ :=
    (reorder_emergency_contact_spec [⟨1, 5, 1⟩, ⟨2, 5, 2⟩, ⟨3, 5, 3⟩] 3 1
      ⟨3, 5, 3⟩ rfl (by decide) (by decide)).2 (by decide)
  exact ⟨l, hres, hmoved, hnodup⟩

/-- C9 (evaluating the code at the failing input): `create_staff_credential`
can never commit a credential — after the user and credential-type checks
pass, the row construction duplicates the `is_expired` keyword (it is both
in `model_dump()` and passed explicitly), raising `TypeError`, surfaced as
HTTP 500.  The repository's own test `test_create_staff_credential`
submits exactly such a request and expects 201 Created. -/
theorem create_staff_credential_crash :
    (∀ (users : List User) (d : StaffCredentialCreate) (today : Nat),
      (create_staff_credential users d today).isOk = false) ∧
    create_staff_credential [⟨1, "Admin", "User"⟩]
      ⟨1, "CPR", some 200, true, false⟩ 100 =
      .error HTTP_500_INTERNAL_SERVER_ERROR := by
  constructor
  · intro users d today
    unfold create_staff_credential
    split
    · rfl
    · split
      · rfl
      · rfl
  · rfl

/-- C10: the pickup-name match is case-insensitive substring containment —
whenever some active pickup record of the child contains the query
case-insensitively (e.g. "Jane" inside "Jane Doe"), verification grants,
and the detail returned is that of the first such matching record in
table order. -/
theorem verify_pickup_substring_match (children : List Child)
    (pickups : List AuthorizedPickup) (cid : Nat) (q : String) (child : Child)
    (hc : children.find? (fun c => c.id == cid) = some child) :
    ((∃ p ∈ pickups, p.child_id = cid ∧ p.is_active = true ∧
        ilike_contains q p.name = true) →
      ∃ m, pickups.find? (fun p =>
          p.child_id == cid && ilike_contains q p.name && p.is_active) =
        some m ∧
      verify_pickup_authorization children pickups cid q =
        .ok (.granted cid (child.first_name ++ " " ++ child.last_name)
          { id := m.id
            name := m.name
            relationship_type := m.relationship_type
            phone := m.phone
            photo_url := m.photo_url
            requires_password := m.requires_password
            password_hint :=
              if m.requires_password then m.password_hint else none
            identification_notes := m.identification_notes }
          "This person IS authorized to pick up this child")) ∧
    ilike_contains "Jane" "Jane Doe" = true := by
  constructor
  · rintro ⟨p, hp, h1, h2, h3⟩
    have hsome : (pickups.find? (fun p =>
        p.child_id == cid && ilike_contains q p.name &&
          p.is_active)).isSome := by
      rw [List.find?_isSome]
      exact ⟨p, hp, by simp [h1, h2, h3]⟩
    rw [Option.isSome_iff_exists] at hsome
    obtain ⟨m, hm⟩ := hsome
    refine ⟨m, hm, ?_⟩
    unfold verify_pickup_authorization
    rw [hc, hm]
  · decide

/-- Witness for C10: the spec's scenario — after adding "Jane Doe" as an
authorized pickup, verifying the name "Jane" is granted with her detail. -/
theorem verify_pickup_substring_match_witness :
    ∃ m, List.find? (fun p =>
        p.child_id == 1 && ilike_contains "Jane" p.name && p.is_active)
        [(⟨4, 1, "Jane Doe", "aunt", "555", none, none, false, none, true⟩ :
          AuthorizedPickup)] = some m ∧
      verify_pickup_authorization [⟨1, "Lucas", "Smith", true⟩]
        [⟨4, 1, "Jane Doe", "aunt", "555", none, none, false, none, true⟩]
        1 "Jane" =
        .ok (.granted 1 "Lucas Smith"
          { id := m.id
            name := m.name
            relationship_type := m.relationship_type
            phone := m.phone
            photo_url := m.photo_url
            requires_password := m.requires_password
            password_hint :=
              if m.requires_password then m.password_hint else none
            identification_notes := m.identification_notes }
          "This person IS authorized to pick up this child") :=
  (verify_pickup_substring_match [⟨1, "Lucas", "Smith", true⟩]
      [⟨4, 1, "Jane Doe", "aunt", "555", none, none, false, none, true⟩]
      1 "Jane" ⟨1, "Lucas", "Smith", true⟩ rfl).1
    ⟨⟨4, 1, "Jane Doe", "aunt", "555", none, none, false, none, true⟩,
      List.mem_singleton.mpr rfl, rfl, rfl, by decide⟩

end NetCare
